import Mathlib

/-!
Verification development for the consistency/streak engine of the
kn0xfitlog backend.  The embedding models one user's per-day records
(`ConsistencyRecord` rows of `src/models/user.py`) as a list of records,
calendar dates as integers (days), and the route/service functions of
`src/routes/consistency.py` and `src/services/notification_service.py`
as pure Lean functions over that store.
-/

/-- Model of the `ConsistencyRecord` row (src/models/user.py, lines 62-69),
restricted to one user: the `id` and `user_id` columns are dropped because
every query in the modelled code filters by a single `user_id`. -/
structure ConsistencyRecord where
  date : Int
  workout_logged : Bool
  diet_logged : Bool
  streak_day : Nat
  cycle_start : Option Int
deriving DecidableEq

/-- A user's record store: the rows of `ConsistencyRecord` for that user. -/
abbrev Store := List ConsistencyRecord

/-- Model of `ConsistencyRecord.query.filter_by(user_id=..., date=d).first()`. -/
def findByDate (recs : Store) (d : Int) : Option ConsistencyRecord :=
  recs.find? (fun r => decide (r.date = d))

/-- Model of
`ConsistencyRecord.query.filter_by(user_id=...).order_by(date.desc()).first()`:
the record with the maximal date. -/
def latestRecord : Store → Option ConsistencyRecord
  | [] => none
  | r :: rs =>
    match latestRecord rs with
    | none => some r
    | some m => if m.date > r.date then some m else some r

/-- A record is active (counts toward the streak) iff either flag is set:
the condition `record.workout_logged or record.diet_logged` of
consistency.py line 56. -/
def isActive (r : ConsistencyRecord) : Bool :=
  r.workout_logged || r.diet_logged

/-- Whether the day `d` has an active record in the store. -/
def activeOn (recs : Store) (d : Int) : Bool :=
  match findByDate recs d with
  | some r => isActive r
  | none => false

/-- The backward-walking loop of `calculate_streak` (consistency.py lines
50-60), with explicit fuel: each counted day consumes a record with a fresh
date, so `recs.length + 1` fuel is always enough (proved below). -/
def streakFrom (recs : Store) : Int → Nat → Nat
  | _, 0 => 0
  | d, fuel + 1 =>
    match findByDate recs d with
    | some r => if isActive r then streakFrom recs (d - 1) fuel + 1 else 0
    | none => 0

/-- Model of `calculate_streak` (consistency.py lines 42-62): start at
`today - 1` and walk backward while the day has an active record. -/
def calculate_streak (recs : Store) (today : Int) : Nat :=
  streakFrom recs (today - 1) (recs.length + 1)

namespace NotificationService

/-- The identical backward loop of
`NotificationService._calculate_streak` (notification_service.py 179-189). -/
def streakFrom (recs : Store) : Int → Nat → Nat
  | _, 0 => 0
  | d, fuel + 1 =>
    match findByDate recs d with
    | some r => if isActive r then streakFrom recs (d - 1) fuel + 1 else 0
    | none => 0

/-- Model of `NotificationService._calculate_streak`
(notification_service.py lines 171-191). -/
def calculate_streak (recs : Store) (today : Int) : Nat :=
  streakFrom recs (today - 1) (recs.length + 1)

end NotificationService

/-- The running-maximum loop of the best-streak scan
(consistency.py lines 229-235). -/
def best_streak_aux : Store → Nat → Nat → Nat
  | [], best, _ => best
  | r :: rs, best, temp =>
    if isActive r then best_streak_aux rs (max best (temp + 1)) (temp + 1)
    else best_streak_aux rs best 0

/-- Model of the best-streak computation of `get_streak` (consistency.py
lines 224-235): scan the user's records in ascending date order, increment
a running counter on each active record, reset it on an inactive record.
The argument is the ascending-by-date query result. -/
def best_streak (records : Store) : Nat :=
  best_streak_aux records 0 0

/-- Date-free form of the best-streak scan: it sees only the activity flags
of the existing records, never the dates. -/
def best_streak_flags_aux : List Bool → Nat → Nat → Nat
  | [], best, _ => best
  | b :: bs, best, temp =>
    if b then best_streak_flags_aux bs (max best (temp + 1)) (temp + 1)
    else best_streak_flags_aux bs best 0

/-- Best streak computed from activity flags alone. -/
def best_streak_flags (bs : List Bool) : Nat :=
  best_streak_flags_aux bs 0 0

lemma findByDate_eq_some {recs : Store} {d : Int} {r : ConsistencyRecord}
    (h : findByDate recs d = some r) : r ∈ recs ∧ r.date = d := by
  refine ⟨List.mem_of_find?_eq_some h, ?_⟩
  have := List.find?_some h
  simpa using this

lemma activeOn_mem_dates {recs : Store} {d : Int} (h : activeOn recs d = true) :
    d ∈ recs.map (fun r => r.date) := by
  unfold activeOn at h
  rcases hf : findByDate recs d with _ | r
  · rw [hf] at h; simp at h
  · rcases findByDate_eq_some hf with ⟨hm, hd⟩
    exact hd ▸ List.mem_map_of_mem _ hm

lemma streakFrom_succ_some {recs : Store} {d : Int} {r : ConsistencyRecord}
    (fuel : Nat) (hf : findByDate recs d = some r) :
    streakFrom recs d (fuel + 1) =
      if isActive r then streakFrom recs (d - 1) fuel + 1 else 0 := by
  simp only [streakFrom, hf]

lemma streakFrom_succ_none {recs : Store} {d : Int}
    (fuel : Nat) (hf : findByDate recs d = none) :
    streakFrom recs d (fuel + 1) = 0 := by
  simp only [streakFrom, hf]

lemma streakFrom_active (recs : Store) :
    ∀ (fuel : Nat) (d : Int) (k : Nat), k < streakFrom recs d fuel →
      activeOn recs (d - (k : Int)) = true := by
  intro fuel
  induction fuel with
  | zero => intro d k hk; simp [streakFrom] at hk
  | succ n ih =>
    intro d k hk
    rcases hf : findByDate recs d with _ | r
    · rw [streakFrom_succ_none n hf] at hk; omega
    · rw [streakFrom_succ_some n hf] at hk
      by_cases ha : isActive r = true
      · rw [if_pos ha] at hk
        cases k with
        | zero => simpa [activeOn, hf] using ha
        | succ j =>
          have hj : j < streakFrom recs (d - 1) n := by omega
          have := ih (d - 1) j hj
          have harith : d - ((j : Int) + 1) = d - 1 - (j : Int) := by ring
          simpa [harith] using this
      · rw [if_neg ha] at hk; omega

lemma streakFrom_le_length (recs : Store) (fuel : Nat) (d : Int) :
    streakFrom recs d fuel ≤ recs.length := by
  set n := streakFrom recs d fuel with hn
  have hsub : ((List.range n).map (fun k : Nat => d - (k : Int))) ⊆
      recs.map (fun r => r.date) := by
    intro x hx
    rcases List.mem_map.1 hx with ⟨k, hk, rfl⟩
    exact activeOn_mem_dates (streakFrom_active recs fuel d k (List.mem_range.1 hk))
  have hnd : ((List.range n).map (fun k : Nat => d - (k : Int))).Nodup := by
    refine List.Nodup.map ?_ (List.nodup_range n)
    intro a b hab
    have h1 : d - (a : Int) = d - (b : Int) := hab
    have : (a : Int) = (b : Int) := by omega
    exact_mod_cast this
  have hle := (List.subperm_of_subset hnd hsub).length_le
  simpa using hle

lemma streakFrom_char (recs : Store) :
    ∀ (fuel : Nat) (d : Int), streakFrom recs d fuel < fuel →
      activeOn recs (d - (streakFrom recs d fuel : Int)) = false := by
  intro fuel
  induction fuel with
  | zero => intro d hd; omega
  | succ n ih =>
    intro d hd
    rcases hf : findByDate recs d with _ | r
    · rw [streakFrom_succ_none n hf]
      simp [activeOn, hf]
    · by_cases ha : isActive r = true
      · have hstep : streakFrom recs d (n + 1) = streakFrom recs (d - 1) n + 1 := by
          rw [streakFrom_succ_some n hf, if_pos ha]
        rw [hstep] at hd ⊢
        have hlt : streakFrom recs (d - 1) n < n := by omega
        have := ih (d - 1) hlt
        have harith : d - ((streakFrom recs (d - 1) n : Int) + 1) =
            d - 1 - (streakFrom recs (d - 1) n : Int) := by ring
        rw [Nat.cast_add, Nat.cast_one, harith]
        exact this
      · have h0 : streakFrom recs d (n + 1) = 0 := by
          rw [streakFrom_succ_some n hf, if_neg ha]
        rw [h0]
        simp only [Nat.cast_zero, sub_zero]
        simpa [activeOn, hf] using eq_false_of_ne_true ha

lemma calculate_streak_stops (recs : Store) (today : Int) :
    activeOn recs (today - 1 - (calculate_streak recs today : Int)) = false := by
  have hle := streakFrom_le_length recs (recs.length + 1) (today - 1)
  exact streakFrom_char recs (recs.length + 1) (today - 1) (by omega)

lemma calculate_streak_counts (recs : Store) (today : Int) :
    ∀ k : Nat, k < calculate_streak recs today →
      activeOn recs (today - 1 - (k : Int)) = true := by
  intro k hk
  exact streakFrom_active recs (recs.length + 1) (today - 1) k hk

lemma notification_streakFrom_succ_some {recs : Store} {d : Int}
    {r : ConsistencyRecord} (fuel : Nat) (hf : findByDate recs d = some r) :
    NotificationService.streakFrom recs d (fuel + 1) =
      if isActive r then NotificationService.streakFrom recs (d - 1) fuel + 1
      else 0 := by
  simp only [NotificationService.streakFrom, hf]

lemma notification_streakFrom_succ_none {recs : Store} {d : Int}
    (fuel : Nat) (hf : findByDate recs d = none) :
    NotificationService.streakFrom recs d (fuel + 1) = 0 := by
  simp only [NotificationService.streakFrom, hf]

lemma notification_streakFrom_eq (recs : Store) :
    ∀ (fuel : Nat) (d : Int),
      NotificationService.streakFrom recs d fuel = streakFrom recs d fuel := by
  intro fuel
  induction fuel with
  | zero => intro d; rfl
  | succ n ih =>
    intro d
    rcases hf : findByDate recs d with _ | r
    · rw [notification_streakFrom_succ_none n hf, streakFrom_succ_none n hf]
    · rw [notification_streakFrom_succ_some n hf, streakFrom_succ_some n hf, ih]

lemma latestRecord_cons_none {rs : Store} {r : ConsistencyRecord}
    (hl : latestRecord rs = none) : latestRecord (r :: rs) = some r := by
  simp only [latestRecord, hl]

lemma latestRecord_cons_some {rs : Store} {r m0 : ConsistencyRecord}
    (hl : latestRecord rs = some m0) :
    latestRecord (r :: rs) = if m0.date > r.date then some m0 else some r := by
  simp only [latestRecord, hl]

lemma latestRecord_nil_of_eq_none : ∀ {recs : Store},
    latestRecord recs = none → recs = [] := by
  intro recs h
  cases recs with
  | nil => rfl
  | cons r rs =>
    rcases hl : latestRecord rs with _ | m0
    · rw [latestRecord_cons_none hl] at h; exact absurd h (by simp)
    · rw [latestRecord_cons_some hl] at h
      by_cases hgt : m0.date > r.date
      · rw [if_pos hgt] at h; exact absurd h (by simp)
      · rw [if_neg hgt] at h; exact absurd h (by simp)

lemma latestRecord_mem : ∀ {recs : Store} {m : ConsistencyRecord},
    latestRecord recs = some m → m ∈ recs := by
  intro recs
  induction recs with
  | nil => intro m h; simp [latestRecord] at h
  | cons r rs ih =>
    intro m h
    rcases hl : latestRecord rs with _ | m0
    · rw [latestRecord_cons_none hl] at h
      have : m = r := by simpa using h.symm
      simp [this]
    · rw [latestRecord_cons_some hl] at h
      by_cases hgt : m0.date > r.date
      · rw [if_pos hgt] at h
        have : m = m0 := by simpa using h.symm
        exact this ▸ List.mem_cons_of_mem r (ih hl)
      · rw [if_neg hgt] at h
        have : m = r := by simpa using h.symm
        simp [this]

lemma latestRecord_max : ∀ {recs : Store} {m : ConsistencyRecord},
    latestRecord recs = some m → ∀ r ∈ recs, r.date ≤ m.date := by
  intro recs
  induction recs with
  | nil => intro m h; simp [latestRecord] at h
  | cons r rs ih =>
    intro m h x hx
    rcases hl : latestRecord rs with _ | m0
    · rw [latestRecord_cons_none hl] at h
      have hm : m = r := by simpa using h.symm
      have hrs : rs = [] := latestRecord_nil_of_eq_none hl
      subst hrs
      have : x = r := by simpa using hx
      simp [this, hm]
    · rw [latestRecord_cons_some hl] at h
      rcases List.mem_cons.1 hx with hxr | hxs
      · by_cases hgt : m0.date > r.date
        · rw [if_pos hgt] at h
          have : m = m0 := by simpa using h.symm
          subst this; subst hxr; omega
        · rw [if_neg hgt] at h
          have : m = r := by simpa using h.symm
          subst this; subst hxr; omega
      · by_cases hgt : m0.date > r.date
        · rw [if_pos hgt] at h
          have : m = m0 := by simpa using h.symm
          subst this
          exact ih hl x hxs
        · rw [if_neg hgt] at h
          have : m = r := by simpa using h.symm
          subst this
          have := ih hl x hxs
          omega

/-- Model of `get_or_create_consistency_record` (consistency.py lines
64-91): return the existing record for `target_date` unchanged, or create
one whose `cycle_start` is inherited from the latest record when the gap
from its `cycle_start` is under 30 days, and restarts at `target_date`
otherwise.  The second component is the store after the `db.session.add`. -/
def get_or_create_consistency_record (recs : Store) (target_date : Int) :
    ConsistencyRecord × Store :=
  match findByDate recs target_date with
  | some record => (record, recs)
  | none =>
    let cycle_start : Int :=
      match latestRecord recs with
      | some latest_record =>
        match latest_record.cycle_start with
        | some cs =>
          if target_date - cs < 30 then cs else target_date
        | none => target_date
      | none => target_date
    let record : ConsistencyRecord :=
      { date := target_date, workout_logged := false, diet_logged := false,
        streak_day := 0, cycle_start := some cycle_start }
    (record, recs ++ [record])

/-- Writing a mutated record object back into the store: every row with the
record's date is the mutated object (in Python the row and the object are
the same; this models the state after the in-place mutation). -/
def storeSet (recs : Store) (r : ConsistencyRecord) : Store :=
  recs.map (fun x => if x.date = r.date then r else x)

/-- The record after the flag assignment of the `update_consistency` route
(consistency.py lines 192-195): the get-or-create record with the flag
named by `upload_type` set. -/
def update_record1 (recs : Store) (target_date : Int)
    (upload_type : String) : ConsistencyRecord :=
  if upload_type = "workout" then
    { (get_or_create_consistency_record recs target_date).1 with
        workout_logged := true }
  else
    { (get_or_create_consistency_record recs target_date).1 with
        diet_logged := true }

/-- The store state after the flag assignment (the mutated row as the
session sees it when `calculate_streak` queries it). -/
def update_store1 (recs : Store) (target_date : Int)
    (upload_type : String) : Store :=
  storeSet (get_or_create_consistency_record recs target_date).2
    (update_record1 recs target_date upload_type)

/-- The record after the streak recompute of the `update_consistency`
route (consistency.py line 198): `streak_day = calculate_streak(...)`,
which the code always evaluates relative to `date.today()`. -/
def update_record2 (recs : Store) (target_date today : Int)
    (upload_type : String) : ConsistencyRecord :=
  { update_record1 recs target_date upload_type with
      streak_day :=
        calculate_streak (update_store1 recs target_date upload_type) today }

/-- Model of the `update_consistency` route (consistency.py lines
167-214): validate the type, get-or-create the record for `target_date`,
set the named flag, recompute `streak_day`, and commit.  Returns the final
record and store, or `none` on a validation error. -/
def update_consistency (recs : Store) (target_date today : Int)
    (upload_type : String) : Option (ConsistencyRecord × Store) :=
  if upload_type = "workout" ∨ upload_type = "diet" then
    some (update_record2 recs target_date today upload_type,
      storeSet (update_store1 recs target_date upload_type)
        (update_record2 recs target_date today upload_type))
  else none

/-- Model of the range query
`filter(user_id==..., date >= s, date <= e).order_by(date.asc())`, applied
to the (ascending) store. -/
def findRange (recs : Store) (s e : Int) : Store :=
  recs.filter (fun r => decide (s ≤ r.date) && decide (r.date ≤ e))

/-- Python's `round(x, 1)` on the exact rational value: round to one
decimal place (ties settled by `round`; no tie is reachable in the
quantities the theorems below evaluate). -/
def round1 (q : ℚ) : ℚ :=
  (round (q * 10) : ℚ) / 10

/-- One entry of the weekly `daily_summary` (consistency.py lines 357-363);
the `day_name` string is derived from `date` and omitted here. -/
structure DaySummary where
  date : Int
  workout_logged : Bool
  diet_logged : Bool
  both_complete : Bool
deriving DecidableEq

/-- Model of the `daily_summary` loop of `get_weekly_summary`
(consistency.py lines 352-363): one entry per calendar day of the week
ending at `end_date`, flags defaulting to false when the day has no
record. -/
def daily_summary (recs : Store) (end_date : Int) : List DaySummary :=
  (List.range 7).map (fun (i : Nat) =>
    let check_date : Int := (end_date - 6) + (i : Int)
    match (findRange recs (end_date - 6) end_date).find?
        (fun r => decide (r.date = check_date)) with
    | some record =>
      { date := check_date, workout_logged := record.workout_logged,
        diet_logged := record.diet_logged,
        both_complete := record.workout_logged && record.diet_logged }
    | none =>
      { date := check_date, workout_logged := false, diet_logged := false,
        both_complete := false })

/-- The `weekly_stats` object of `get_weekly_summary` (consistency.py
lines 365-379). -/
structure WeeklyStats where
  workout_days : Nat
  diet_days : Nat
  complete_days : Nat
  workout_percentage : ℚ
  diet_percentage : ℚ
  completion_percentage : ℚ
deriving DecidableEq

/-- Model of the weekly statistics of `get_weekly_summary`: counts over the
7 daily-summary entries, percentages over the constant denominator 7. -/
def weekly_stats (recs : Store) (end_date : Int) : WeeklyStats :=
  let ds := daily_summary recs end_date
  let workout_days := (ds.filter (fun d => d.workout_logged)).length
  let diet_days := (ds.filter (fun d => d.diet_logged)).length
  let complete_days := (ds.filter (fun d => d.both_complete)).length
  { workout_days := workout_days, diet_days := diet_days,
    complete_days := complete_days,
    workout_percentage := round1 ((workout_days : ℚ) / 7 * 100),
    diet_percentage := round1 ((diet_days : ℚ) / 7 * 100),
    completion_percentage := round1 ((complete_days : ℚ) / 7 * 100) }

/-- The `statistics` object of `get_consistency_data` (consistency.py
lines 126-153). -/
structure Statistics where
  current_streak : Nat
  total_days : Nat
  workout_days : Nat
  diet_days : Nat
  both_logged_days : Nat
  workout_percentage : ℚ
  diet_percentage : ℚ
  completion_percentage : ℚ
deriving DecidableEq

/-- The guarded percentage of `get_consistency_data`:
`round((count / total_days * 100) if total_days > 0 else 0, 1)`. -/
def pct (count total_days : Nat) : ℚ :=
  round1 (if total_days > 0 then (count : ℚ) / total_days * 100 else 0)

/-- Model of the statistics of `get_consistency_data`: counts over the
records of the last 30 calendar days (`[today - 29, today]`), with
`total_days` the number of existing records and percentages guarded
against an empty range. -/
def statistics (recs : Store) (today : Int) : Statistics :=
  let records := findRange recs (today - 29) today
  let total_days := records.length
  let workout_days := (records.filter (fun r => r.workout_logged)).length
  let diet_days := (records.filter (fun r => r.diet_logged)).length
  let both_logged_days :=
    (records.filter (fun r => r.workout_logged && r.diet_logged)).length
  { current_streak := calculate_streak recs today,
    total_days := total_days, workout_days := workout_days,
    diet_days := diet_days, both_logged_days := both_logged_days,
    workout_percentage := pct workout_days total_days,
    diet_percentage := pct diet_days total_days,
    completion_percentage := pct both_logged_days total_days }

/-- The `cycle_info` object of `get_consistency_data` (consistency.py
lines 112-124 and 155-158). -/
structure CycleInfo where
  cycle_start : Option Int
  cycle_day : Int
  days_remaining : Int
deriving DecidableEq

/-- Model of the cycle information of `get_consistency_data`: `cycle_day`
is `(today - cycle_start) + 1` capped at 30 when the latest record carries
a `cycle_start` (otherwise 0), and `days_remaining` is
`max(0, 30 - cycle_day)` when `cycle_day > 0` and 30 otherwise. -/
def cycle_info (recs : Store) (today : Int) : CycleInfo :=
  let p : Option Int × Int :=
    match latestRecord recs with
    | some latest_record =>
      match latest_record.cycle_start with
      | some cs =>
        let cd : Int := (today - cs) + 1
        (some cs, if cd > 30 then 30 else cd)
      | none => (none, 0)
    | none => (none, 0)
  { cycle_start := p.1, cycle_day := p.2,
    days_remaining := if p.2 > 0 then max 0 (30 - p.2) else 30 }

/-- The fixed comeback pool of `get_motivational_message`
(consistency.py lines 13-24). -/
def missed_messages : List String :=
  ["Don\x27t let yesterday\x27s miss define today\x27s success! ðŸ’ª",
   "Every champion has setbacks. What matters is the comeback! ðŸ”¥",
   "Your journey continues today. Let\x27s get back on track! ðŸš€",
   "One missed day doesn\x27t erase your progress. Keep going! âš¡",
   "The best time to restart is now. You\x27ve got this! ðŸŒŸ",
   "Consistency isn\x27t perfection. It\x27s persistence! ðŸ’¯",
   "Your future self is counting on today\x27s effort! ðŸŽ¯",
   "Small steps today, big results tomorrow! ðŸ“ˆ",
   "Turn today\x27s motivation into tomorrow\x27s habit! âœ¨",
   "Progress over perfection, always! ðŸ™Œ"]

/-- Model of `random.choice`: the random source is injected as an index
`rand`, reduced modulo the pool size. -/
def random_choice (pool : List String) (rand : Nat) : String :=
  pool.getD (rand % pool.length) ""

/-- Model of `get_motivational_message` (consistency.py lines 9-40). -/
def get_motivational_message (streak : Nat) (missed_days : Nat)
    (rand : Nat) : String :=
  if missed_days > 0 then random_choice missed_messages rand
  else if streak = 0 then
    "Ready to start your fitness journey? Every expert was once a beginner! ðŸš€"
  else if streak = 1 then
    "Great start! Day 1 is complete. Momentum is building! ðŸ”¥"
  else if streak < 7 then
    "Amazing! " ++ toString streak ++
      " days strong! You\x27re building an incredible habit! ðŸ’ª"
  else if streak < 14 then
    "Fantastic " ++ toString streak ++ "-day streak! You\x27re in the zone! ðŸŒŸ"
  else if streak < 21 then
    "Outstanding " ++ toString streak ++
      " days! You\x27re forming a powerful habit! âš¡"
  else if streak < 30 then
    "Incredible " ++ toString streak ++
      "-day streak! You\x27re a consistency champion! ðŸ†"
  else
    "Legendary " ++ toString streak ++ "-day streak! You\x27re an inspiration! ðŸ‘‘"

/-- The spec's bucketing of the no-miss case, written with the explicit
non-overlapping ranges 0, 1, [2,7), [7,14), [14,21), [21,30), [30,inf)
(spec section 4.4); compared against the source function below. -/
def bucket_message (streak : Nat) : String :=
  if streak = 0 then
    "Ready to start your fitness journey? Every expert was once a beginner! ðŸš€"
  else if streak = 1 then
    "Great start! Day 1 is complete. Momentum is building! ðŸ”¥"
  else if 2 ≤ streak ∧ streak < 7 then
    "Amazing! " ++ toString streak ++
      " days strong! You\x27re building an incredible habit! ðŸ’ª"
  else if 7 ≤ streak ∧ streak < 14 then
    "Fantastic " ++ toString streak ++ "-day streak! You\x27re in the zone! ðŸŒŸ"
  else if 14 ≤ streak ∧ streak < 21 then
    "Outstanding " ++ toString streak ++
      " days! You\x27re forming a powerful habit! âš¡"
  else if 21 ≤ streak ∧ streak < 30 then
    "Incredible " ++ toString streak ++
      "-day streak! You\x27re a consistency champion! ðŸ†"
  else
    "Legendary " ++ toString streak ++ "-day streak! You\x27re an inspiration! ðŸ‘‘"

/-- Model of the `User` row (src/models/user.py lines 7-18), with the
fields the scheduler sweeps read. -/
structure SchedUser where
  id : Nat
  username : String
  email : String
  is_active : Bool

/-- Outcome recorded for one user of a scheduler sweep: the per-user
`try/except` of notification_service.py lines 55-70 and 82-86 turns an
exception into a logged `failed` outcome instead of propagating it. -/
inductive SweepOutcome
  | notified
  | skipped
  | failed (msg : String)
deriving DecidableEq

/-- The per-user loop shared by `send_daily_reminders` and
`send_weekly_motivation`: each user's processing runs inside `try/except`;
an `Except.error` (a raised exception) is caught and recorded, and the
loop continues with the remaining users. -/
def sweepUsers (process : SchedUser → Except String SweepOutcome) :
    List SchedUser → Except String (List SweepOutcome)
  | [] => pure []
  | u :: rest => do
    let o : SweepOutcome ←
      match process u with
      | .ok o => pure o
      | .error e => pure (.failed e)
    let os ← sweepUsers process rest
    pure (o :: os)

/-- Model of `NotificationService.send_daily_reminders`
(notification_service.py lines 47-73): sweep the active users, processing
each inside the per-user `try/except`. -/
def send_daily_reminders (process : SchedUser → Except String SweepOutcome)
    (users : List SchedUser) : Except String (List SweepOutcome) :=
  sweepUsers process (users.filter (fun u => u.is_active))

/-- Model of `NotificationService.send_weekly_motivation`
(notification_service.py lines 75-89): same sweep structure with the
weekly per-user body. -/
def send_weekly_motivation (process : SchedUser → Except String SweepOutcome)
    (users : List SchedUser) : Except String (List SweepOutcome) :=
  sweepUsers process (users.filter (fun u => u.is_active))

/-- What the per-user `try/except` makes of one user's processing. -/
def catchOutcome : Except String SweepOutcome → SweepOutcome
  | .ok o => o
  | .error e => .failed e

lemma findByDate_cons_eq {r : ConsistencyRecord} {d : Int} (rs : Store)
    (h : r.date = d) : findByDate (r :: rs) d = some r := by
  simp [findByDate, List.find?, h]

lemma findByDate_cons_ne {r : ConsistencyRecord} {d : Int} (rs : Store)
    (h : ¬ r.date = d) : findByDate (r :: rs) d = findByDate rs d := by
  simp [findByDate, List.find?, h]

lemma findByDate_append_of_none {recs : Store} {d : Int}
    (h : findByDate recs d = none) (l2 : Store) :
    findByDate (recs ++ l2) d = findByDate l2 d := by
  induction recs with
  | nil => rfl
  | cons a as ih =>
    by_cases hd : a.date = d
    · rw [findByDate_cons_eq as hd] at h; exact absurd h (by simp)
    · rw [findByDate_cons_ne as hd] at h
      rw [List.cons_append, findByDate_cons_ne (as ++ l2) hd]
      exact ih h

lemma get_or_create_of_some {recs : Store} {target_date : Int}
    {r : ConsistencyRecord} (h : findByDate recs target_date = some r) :
    get_or_create_consistency_record recs target_date = (r, recs) := by
  simp [get_or_create_consistency_record, h]

lemma get_or_create_date (recs : Store) (target_date : Int) :
    (get_or_create_consistency_record recs target_date).1.date = target_date := by
  rcases h : findByDate recs target_date with _ | r
  · simp [get_or_create_consistency_record, h]
  · simp [get_or_create_consistency_record, h, (findByDate_eq_some h).2]

lemma get_or_create_find (recs : Store) (target_date : Int) :
    findByDate (get_or_create_consistency_record recs target_date).2
        target_date =
      some (get_or_create_consistency_record recs target_date).1 := by
  rcases h : findByDate recs target_date with _ | r
  · have hd : (get_or_create_consistency_record recs target_date).1.date =
        target_date := get_or_create_date recs target_date
    have h2 : (get_or_create_consistency_record recs target_date).2 =
        recs ++ [(get_or_create_consistency_record recs target_date).1] := by
      simp [get_or_create_consistency_record, h]
    rw [h2, findByDate_append_of_none h, findByDate_cons_eq [] hd]
  · rw [get_or_create_of_some h]
    exact h

lemma get_or_create_superset {recs : Store} {target_date : Int}
    {x : ConsistencyRecord} (hx : x ∈ recs) :
    x ∈ (get_or_create_consistency_record recs target_date).2 := by
  rcases h : findByDate recs target_date with _ | r
  · have h2 : (get_or_create_consistency_record recs target_date).2 =
        recs ++ [(get_or_create_consistency_record recs target_date).1] := by
      simp [get_or_create_consistency_record, h]
    rw [h2]
    exact List.mem_append_left _ hx
  · rw [get_or_create_of_some h]
    exact hx

lemma storeSet_cons (a : ConsistencyRecord) (as : Store)
    (r : ConsistencyRecord) :
    storeSet (a :: as) r =
      (if a.date = r.date then r else a) :: storeSet as r := rfl

lemma findByDate_storeSet (recs : Store) (r : ConsistencyRecord) (d : Int) :
    findByDate (storeSet recs r) d =
      (findByDate recs d).map (fun x => if x.date = r.date then r else x) := by
  induction recs with
  | nil => rfl
  | cons a as ih =>
    rw [storeSet_cons]
    by_cases hc : a.date = r.date
    · rw [if_pos hc]
      by_cases hd : a.date = d
      · have hrd : r.date = d := by rw [← hc]; exact hd
        rw [findByDate_cons_eq _ hrd, findByDate_cons_eq as hd]
        simp [hc]
      · have hrd : ¬ r.date = d := by rw [← hc]; exact hd
        rw [findByDate_cons_ne _ hrd, findByDate_cons_ne as hd, ih]
    · rw [if_neg hc]
      by_cases hd : a.date = d
      · rw [findByDate_cons_eq _ hd, findByDate_cons_eq as hd]
        simp [hc]
      · rw [findByDate_cons_ne _ hd, findByDate_cons_ne as hd, ih]

lemma mem_storeSet_of_ne {recs : Store} {r x : ConsistencyRecord}
    (hx : x ∈ recs) (hne : ¬ x.date = r.date) : x ∈ storeSet recs r := by
  have := List.mem_map_of_mem (fun y => if y.date = r.date then r else y) hx
  simpa [storeSet, hne] using this

lemma eq_of_mem_storeSet_date {recs : Store} {r x : ConsistencyRecord}
    (hx : x ∈ storeSet recs r) (hd : x.date = r.date) : x = r := by
  rcases List.mem_map.1 hx with ⟨y, _, rfl⟩
  by_cases hc : y.date = r.date
  · simp [hc]
  · rw [if_neg hc] at hd ⊢
    exact absurd hd hc

lemma activeOn_storeSet {recs : Store} {r : ConsistencyRecord}
    (h : ∀ x ∈ recs, x.date = r.date → isActive x = isActive r) (d : Int) :
    activeOn (storeSet recs r) d = activeOn recs d := by
  unfold activeOn
  rw [findByDate_storeSet]
  rcases hf : findByDate recs d with _ | x
  · rfl
  · simp only [Option.map_some']
    by_cases hc : x.date = r.date
    · rw [if_pos hc]
      rcases findByDate_eq_some hf with ⟨hm, _⟩
      exact (h x hm hc).symm
    · rw [if_neg hc]

lemma find?_findRange (recs : Store) {s e d : Int} (hs : s ≤ d) (he : d ≤ e) :
    (findRange recs s e).find? (fun r => decide (r.date = d)) =
      findByDate recs d := by
  induction recs with
  | nil => rfl
  | cons a as ih =>
    unfold findRange at ih ⊢
    rw [List.filter_cons]
    by_cases hd : a.date = d
    · have hin : (decide (s ≤ a.date) && decide (a.date ≤ e)) = true := by
        rw [hd]; simp [hs, he]
      rw [if_pos hin, findByDate_cons_eq as hd]
      simp [List.find?, hd]
    · rw [findByDate_cons_ne as hd]
      by_cases hin : (decide (s ≤ a.date) && decide (a.date ≤ e)) = true
      · rw [if_pos hin]
        have hda : (decide (a.date = d)) = false := by simp [hd]
        simp only [List.find?, hda]
        exact ih
      · rw [if_neg hin]
        exact ih

/-- The weekly-summary entry for one calendar day: the record's flags when
the day has a record, all-false defaults otherwise. -/
def daySummaryFor (recs : Store) (check_date : Int) : DaySummary :=
  match findByDate recs check_date with
  | some record =>
    { date := check_date, workout_logged := record.workout_logged,
      diet_logged := record.diet_logged,
      both_complete := record.workout_logged && record.diet_logged }
  | none =>
    { date := check_date, workout_logged := false, diet_logged := false,
      both_complete := false }

lemma daily_summary_eq (recs : Store) (end_date : Int) :
    daily_summary recs end_date =
      (List.range 7).map
        (fun (i : Nat) => daySummaryFor recs (end_date - 6 + (i : Int))) := by
  unfold daily_summary
  apply List.map_congr_left
  intro i hi
  have hi7 : i < 7 := List.mem_range.mp hi
  show (match List.find? (fun r => decide (r.date = (end_date - 6 + (i : Int))))
      (findRange recs (end_date - 6) end_date) with
    | some record =>
      ({ date := (end_date - 6) + (i : Int),
         workout_logged := record.workout_logged,
         diet_logged := record.diet_logged,
         both_complete := record.workout_logged && record.diet_logged } :
        DaySummary)
    | none =>
      ({ date := (end_date - 6) + (i : Int), workout_logged := false,
         diet_logged := false, both_complete := false } : DaySummary)) =
    daySummaryFor recs (end_date - 6 + (i : Int))
  rw [find?_findRange recs (by omega) (by omega)]
  rfl

lemma daily_summary_entry (recs : Store) (end_date : Int) (i : Nat)
    (h : i < 7) :
    (daily_summary recs end_date).getD i
        { date := 0, workout_logged := false, diet_logged := false,
          both_complete := false } =
      daySummaryFor recs (end_date - 6 + (i : Int)) := by
  rw [daily_summary_eq]
  have hlen : i < ((List.range 7).map
      (fun (i : Nat) => daySummaryFor recs (end_date - 6 + (i : Int)))).length := by
    simpa using h
  rw [List.getD_eq_getElem _ _ hlen, List.getElem_map, List.getElem_range]

lemma best_streak_aux_flags : ∀ (recs : Store) (best temp : Nat),
    best_streak_aux recs best temp =
      best_streak_flags_aux (recs.map isActive) best temp := by
  intro recs
  induction recs with
  | nil => intro best temp; rfl
  | cons r rs ih =>
    intro best temp
    by_cases h : isActive r = true <;>
      simp [best_streak_aux, best_streak_flags_aux, h, ih]

lemma sweepUsers_ok (process : SchedUser → Except String SweepOutcome) :
    ∀ l : List SchedUser,
      sweepUsers process l =
        .ok (l.map (fun u => catchOutcome (process u))) := by
  intro l
  induction l with
  | nil => rfl
  | cons u rest ih =>
    rcases hp : process u with e | o <;>
      simp [sweepUsers, hp, ih, catchOutcome, Except.bind]

lemma random_choice_mem (pool : List String) (rand : Nat)
    (h : pool ≠ []) : random_choice pool rand ∈ pool := by
  unfold random_choice
  have hlen : 0 < pool.length := List.length_pos.2 h
  have hlt : rand % pool.length < pool.length := Nat.mod_lt _ hlen
  rw [List.getD_eq_getElem _ _ hlt]
  exact List.getElem_mem hlt

lemma update_record1_date (recs : Store) (target_date : Int) (t : String) :
    (update_record1 recs target_date t).date = target_date := by
  unfold update_record1
  by_cases h : t = "workout" <;>
    simp [h, get_or_create_date recs target_date]

lemma update_record2_date (recs : Store) (target_date today : Int)
    (t : String) :
    (update_record2 recs target_date today t).date = target_date := by
  unfold update_record2
  exact update_record1_date recs target_date t

lemma update_record1_active (recs : Store) (target_date : Int) {t : String}
    (ht : t = "workout" ∨ t = "diet") :
    isActive (update_record1 recs target_date t) = true := by
  rcases ht with h | h <;> subst h <;> simp [update_record1, isActive]

lemma update_record2_active (recs : Store) (target_date today : Int)
    {t : String} (ht : t = "workout" ∨ t = "diet") :
    isActive (update_record2 recs target_date today t) = true := by
  unfold update_record2
  exact update_record1_active recs target_date ht

lemma update_consistency_of_valid (recs : Store) (target_date today : Int)
    {t : String} (ht : t = "workout" ∨ t = "diet") :
    update_consistency recs target_date today t =
      some (update_record2 recs target_date today t,
        storeSet (update_store1 recs target_date t)
          (update_record2 recs target_date today t)) := by
  unfold update_consistency
  rw [if_pos ht]

lemma update_store1_activeOn (recs : Store) (target_date today : Int)
    {t : String} (d : Int) :
    activeOn (storeSet (update_store1 recs target_date t)
        (update_record2 recs target_date today t)) d =
      activeOn (update_store1 recs target_date t) d := by
  apply activeOn_storeSet
  intro x hx hdate
  have hd1 : (update_record2 recs target_date today t).date =
      (update_record1 recs target_date t).date := rfl
  unfold update_store1 at hx
  have hx1 : x = update_record1 recs target_date t :=
    eq_of_mem_storeSet_date hx (hdate.trans hd1)
  subst hx1
  rfl

/-- Example store used by concrete witnesses: active records on days 1 and
2 (day 1 workout only, day 2 diet only). -/
def exRecsC1 : Store :=
  [{ date := 1, workout_logged := true, diet_logged := false,
     streak_day := 0, cycle_start := none },
   { date := 2, workout_logged := false, diet_logged := true,
     streak_day := 0, cycle_start := none }]

/-- C1: for every user store and reference date, `calculate_streak` counts
exactly the consecutive calendar days walking backward from the day before
the reference date that carry an active record (workout or diet logged),
stopping at the first missing-or-inactive day; it is 0 when yesterday has
no active record and 0 for an empty store, and the notification service's
`_calculate_streak` computes the same value. -/
theorem calculate_streak_backward_walk (recs : Store) (today : Int) :
    (∀ k : Nat, k < calculate_streak recs today →
      activeOn recs (today - 1 - (k : Int)) = true) ∧
    activeOn recs (today - 1 - (calculate_streak recs today : Int)) = false ∧
    (activeOn recs (today - 1) = false → calculate_streak recs today = 0) ∧
    (recs = [] → calculate_streak recs today = 0) ∧
    NotificationService.calculate_streak recs today =
      calculate_streak recs today := by
  refine ⟨calculate_streak_counts recs today, calculate_streak_stops recs today,
    ?_, ?_, ?_⟩
  · intro hyd
    by_contra hne
    have hpos : 0 < calculate_streak recs today := Nat.pos_of_ne_zero hne
    have := calculate_streak_counts recs today 0 hpos
    simp only [Nat.cast_zero, sub_zero] at this
    rw [this] at hyd
    exact absurd hyd (by simp)
  · intro h
    subst h
    rfl
  · unfold NotificationService.calculate_streak calculate_streak
    exact notification_streakFrom_eq recs (recs.length + 1) (today - 1)

/-- Concrete instance of C1: with active records on days 1 and 2, the
streak seen on day 3 counts day 2 and stops before day 0. -/
theorem calculate_streak_backward_walk_witness :
    activeOn exRecsC1 (3 - 1 - ((0 : Nat) : Int)) = true ∧
    activeOn exRecsC1 (3 - 1 - (calculate_streak exRecsC1 3 : Int)) = false :=
  ⟨(calculate_streak_backward_walk exRecsC1 3).1 0 (by decide),
   (calculate_streak_backward_walk exRecsC1 3).2.1⟩

/-- C2: the best-streak scan sees only the existing records' activity
flags in order (never the dates), so for a user whose records are exactly
two active records with a calendar gap between them, `best_streak` is 2
while `calculate_streak` run just after the later record yields 1 (the
missing day breaks the backward walk). -/
theorem best_streak_gap_insensitive (r1 r3 : ConsistencyRecord)
    (hgap : r1.date + 1 < r3.date)
    (h1 : isActive r1 = true) (h3 : isActive r3 = true) :
    best_streak [r1, r3] = 2 ∧
    calculate_streak [r1, r3] (r3.date + 1) = 1 ∧
    (∀ recs : Store, best_streak recs = best_streak_flags (recs.map isActive)) := by
  refine ⟨?_, ?_, ?_⟩
  · simp [best_streak, best_streak_aux, h1, h3]
  · have hne1 : ¬ r1.date = r3.date := by omega
    have hne2 : ¬ r1.date = r3.date - 1 := by omega
    have hne3 : ¬ r3.date = r3.date - 1 := by omega
    have e1 : findByDate [r1, r3] r3.date = some r3 := by
      rw [findByDate_cons_ne [r3] hne1, findByDate_cons_eq [] rfl]
    have e2 : findByDate [r1, r3] (r3.date - 1) = none := by
      rw [findByDate_cons_ne [r3] hne2, findByDate_cons_ne [] hne3]
      rfl
    show streakFrom [r1, r3] (r3.date + 1 - 1) ([r1, r3].length + 1) = 1
    have harith : r3.date + 1 - 1 = r3.date := by ring
    rw [harith]
    show streakFrom [r1, r3] r3.date (2 + 1) = 1
    rw [streakFrom_succ_some 2 e1, if_pos h3, streakFrom_succ_none 1 e2]
  · intro recs
    exact best_streak_aux_flags recs 0 0

/-- Concrete instance of C2: active records on days 0 and 2 with day 1
missing give best streak 2 but a current streak of only 1 on day 3. -/
theorem best_streak_gap_insensitive_witness :
    best_streak
        [{ date := 0, workout_logged := true, diet_logged := false,
           streak_day := 0, cycle_start := none },
         { date := 2, workout_logged := true, diet_logged := false,
           streak_day := 0, cycle_start := none }] = 2 ∧
    calculate_streak
        [{ date := 0, workout_logged := true, diet_logged := false,
           streak_day := 0, cycle_start := none },
         { date := 2, workout_logged := true, diet_logged := false,
           streak_day := 0, cycle_start := none }]
      (((2 : Int)) + 1) = 1 :=
  ⟨(best_streak_gap_insensitive _ _ (by decide) (by decide) (by decide)).1,
   (best_streak_gap_insensitive _ _ (by decide) (by decide) (by decide)).2.1⟩

/-- C3: `get_or_create_consistency_record` returns an existing record for
the target date unchanged; otherwise it appends a fresh record dated
`target_date` whose `cycle_start` is the latest record's `cycle_start`
when the gap `target_date - cycle_start` is under 30 days, and
`target_date` when the gap is at least 30 days, the user has no record, or
the latest record has no `cycle_start` — where "latest" is the record of
maximal date over all of the user's records. -/
theorem get_or_create_cycle_start (recs : Store) (target_date : Int) :
    (∀ r, findByDate recs target_date = some r →
      get_or_create_consistency_record recs target_date = (r, recs)) ∧
    (findByDate recs target_date = none →
      (get_or_create_consistency_record recs target_date).2 =
        recs ++ [(get_or_create_consistency_record recs target_date).1] ∧
      (get_or_create_consistency_record recs target_date).1.date =
        target_date ∧
      (recs = [] →
        (get_or_create_consistency_record recs target_date).1.cycle_start =
          some target_date) ∧
      (∀ latest, latestRecord recs = some latest →
        latest ∈ recs ∧ (∀ r ∈ recs, r.date ≤ latest.date) ∧
        (latest.cycle_start = none →
          (get_or_create_consistency_record recs target_date).1.cycle_start =
            some target_date) ∧
        (∀ cs, latest.cycle_start = some cs →
          (target_date - cs < 30 →
            (get_or_create_consistency_record recs target_date).1.cycle_start =
              some cs) ∧
          (30 ≤ target_date - cs →
            (get_or_create_consistency_record recs target_date).1.cycle_start =
              some target_date)))) := by
  constructor
  · intro r h
    exact get_or_create_of_some h
  · intro hn
    refine ⟨by simp [get_or_create_consistency_record, hn], ?_, ?_, ?_⟩
    · exact get_or_create_date recs target_date
    · intro hrecs
      subst hrecs
      rfl
    · intro latest hl
      refine ⟨latestRecord_mem hl, latestRecord_max hl, ?_, ?_⟩
      · intro hcs
        simp [get_or_create_consistency_record, hn, hl, hcs]
      · intro cs hcs
        constructor
        · intro hgap
          simp [get_or_create_consistency_record, hn, hl, hcs, hgap]
        · intro hgap
          have hngap : ¬ target_date - cs < 30 := by omega
          simp [get_or_create_consistency_record, hn, hl, hcs, hngap]

/-- The single prior record used by the C3 witness: day 0, cycle started
on day 0. -/
def exRecC3 : ConsistencyRecord :=
  { date := 0, workout_logged := true, diet_logged := false,
    streak_day := 0, cycle_start := some 0 }

/-- Concrete instance of C3: with a single prior record whose cycle
started on day 0, creating day 10 inherits cycle start 0, while creating
day 40 restarts the cycle at 40. -/
theorem get_or_create_cycle_start_witness :
    (get_or_create_consistency_record [exRecC3] 10).1.cycle_start =
      some 0 ∧
    (get_or_create_consistency_record [exRecC3] 40).1.cycle_start =
      some 40 := by
  constructor
  · exact ((((get_or_create_cycle_start [exRecC3] 10).2 (by decide)).2.2.2
      exRecC3 (by decide)).2.2.2 0 (by decide)).1 (by decide)
  · exact ((((get_or_create_cycle_start [exRecC3] 40).2 (by decide)).2.2.2
      exRecC3 (by decide)).2.2.2 0 (by decide)).2 (by decide)

/-- "Today's position in the streak" as the claim reads it: the backward
walk started at today itself, so that today's own activity is counted. -/
def todays_position (recs : Store) (today : Int) : Nat :=
  streakFrom recs today (recs.length + 1)

/-- C4 counterexample: a first-ever workout log for today (day 0, empty
store) stores `streak_day = 0` — the backward streak ending yesterday —
although today's position in the streak is 1 after the log.  The update
operation never includes today's activity in the stored `streak_day`. -/
theorem update_today_not_counted_cex :
    (update_consistency [] 0 0 "workout").map
        (fun p => (p.1.streak_day, todays_position p.2 0)) =
      some (0, 1) ∧ (0 : Nat) ≠ 1 := by
  constructor
  · decide
  · decide

/-- C4 amended: after a log event for today's date, the stored
`streak_day` is the backward streak ending yesterday over the post-update
store — every day of it active, the walk stopping at the first
missing-or-inactive day — while today itself is active in that store but
is not included in the count. -/
theorem update_streak_day_excludes_today (recs : Store) (today : Int)
    (t : String) (ht : t = "workout" ∨ t = "diet") :
    ∀ r s, update_consistency recs today today t = some (r, s) →
      activeOn s today = true ∧
      (∀ k : Nat, k < r.streak_day →
        activeOn s (today - 1 - (k : Int)) = true) ∧
      activeOn s (today - 1 - (r.streak_day : Int)) = false := by
  intro r s hup
  rw [update_consistency_of_valid recs today today ht] at hup
  have hpr := Option.some.inj hup
  have hr : update_record2 recs today today t = r := congrArg Prod.fst hpr
  have hs : storeSet (update_store1 recs today t)
      (update_record2 recs today today t) = s := congrArg Prod.snd hpr
  subst hr
  subst hs
  have hsd : (update_record2 recs today today t).streak_day =
      calculate_streak (update_store1 recs today t) today := rfl
  refine ⟨?_, ?_, ?_⟩
  · rw [update_store1_activeOn recs today today]
    unfold update_store1 activeOn
    rw [findByDate_storeSet, get_or_create_find recs today]
    simp only [Option.map_some']
    rw [if_pos (by rw [get_or_create_date recs today,
      update_record1_date recs today t])]
    exact update_record1_active recs today ht
  · intro k hk
    rw [update_store1_activeOn recs today today]
    rw [hsd] at hk
    exact calculate_streak_counts (update_store1 recs today t) today k hk
  · rw [update_store1_activeOn recs today today, hsd]
    exact calculate_streak_stops (update_store1 recs today t) today

/-- Store with an active record for day 4, used by the C4 witness. -/
def exRecsC4 : Store :=
  [{ date := 4, workout_logged := true, diet_logged := false,
     streak_day := 0, cycle_start := some 4 }]

/-- Concrete instance of the amended C4: logging a workout on day 5 with
day 4 active leaves today active in the store while the stored streak
stops before day `5 - 1 - streak_day`. -/
theorem update_streak_day_excludes_today_witness :
    activeOn (storeSet (update_store1 exRecsC4 5 "workout")
        (update_record2 exRecsC4 5 5 "workout")) 5 = true ∧
    activeOn (storeSet (update_store1 exRecsC4 5 "workout")
        (update_record2 exRecsC4 5 5 "workout"))
      (5 - 1 - ((update_record2 exRecsC4 5 5 "workout").streak_day : Int)) =
      false :=
  have h := update_streak_day_excludes_today exRecsC4 5 "workout"
    (Or.inl rfl) (update_record2 exRecsC4 5 5 "workout")
    (storeSet (update_store1 exRecsC4 5 "workout")
      (update_record2 exRecsC4 5 5 "workout"))
    (update_consistency_of_valid exRecsC4 5 5 (Or.inl rfl))
  ⟨h.1, h.2.2⟩

/-- C10: a valid update touches only the named activity flag and the
`streak_day` field of the day's record: its `date` and `cycle_start` and
the other activity flag are unchanged, an already-true flag is never reset
(logging is monotone per flag), and records of other dates stay in the
store. -/
theorem update_frame_and_monotone (recs : Store) (target_date today : Int)
    (t : String) (ht : t = "workout" ∨ t = "diet") :
    ∀ r s, update_consistency recs target_date today t = some (r, s) →
      r.date = target_date ∧
      (∀ r0, findByDate recs target_date = some r0 →
        r.cycle_start = r0.cycle_start ∧
        (t = "workout" →
          r.workout_logged = true ∧ r.diet_logged = r0.diet_logged) ∧
        (t = "diet" →
          r.diet_logged = true ∧ r.workout_logged = r0.workout_logged) ∧
        (r0.workout_logged = true → r.workout_logged = true) ∧
        (r0.diet_logged = true → r.diet_logged = true)) ∧
      (∀ x ∈ recs, ¬ x.date = target_date → x ∈ s) := by
  intro r s hup
  rw [update_consistency_of_valid recs target_date today ht] at hup
  have hpr := Option.some.inj hup
  have hr : update_record2 recs target_date today t = r :=
    congrArg Prod.fst hpr
  have hs : storeSet (update_store1 recs target_date t)
      (update_record2 recs target_date today t) = s := congrArg Prod.snd hpr
  subst hr
  subst hs
  refine ⟨update_record2_date recs target_date today t, ?_, ?_⟩
  · intro r0 hf
    have h0 : (get_or_create_consistency_record recs target_date).1 = r0 :=
      congrArg Prod.fst (get_or_create_of_some hf)
    rcases ht with hw | hd
    · subst hw
      refine ⟨?_, ?_, ?_, ?_, ?_⟩
      · show (update_record1 recs target_date "workout").cycle_start =
          r0.cycle_start
        simp [update_record1, h0]
      · intro _
        constructor
        · rfl
        · show (update_record1 recs target_date "workout").diet_logged =
            r0.diet_logged
          simp [update_record1, h0]
      · intro hc
        exact absurd hc (by decide)
      · intro _
        rfl
      · intro hdl
        show (update_record1 recs target_date "workout").diet_logged = true
        simp [update_record1, h0, hdl]
    · subst hd
      refine ⟨?_, ?_, ?_, ?_, ?_⟩
      · show (update_record1 recs target_date "diet").cycle_start =
          r0.cycle_start
        simp [update_record1, h0]
      · intro hc
        exact absurd hc (by decide)
      · intro _
        constructor
        · rfl
        · show (update_record1 recs target_date "diet").workout_logged =
            r0.workout_logged
          simp [update_record1, h0]
      · intro hwl
        show (update_record1 recs target_date "diet").workout_logged = true
        simp [update_record1, h0, hwl]
      · intro _
        rfl
  · intro x hx hne
    have h1 : x ∈ (get_or_create_consistency_record recs target_date).2 :=
      get_or_create_superset hx
    have h2 : x ∈ update_store1 recs target_date t := by
      unfold update_store1
      exact mem_storeSet_of_ne h1
        (by rw [update_record1_date recs target_date t]; exact hne)
    exact mem_storeSet_of_ne h2
      (by rw [update_record2_date recs target_date today t]; exact hne)

/-- The pre-existing record (diet already logged, cycle started day 2)
used by the C10 witness. -/
def exRecC10 : ConsistencyRecord :=
  { date := 4, workout_logged := false, diet_logged := true,
    streak_day := 0, cycle_start := some 2 }

/-- Concrete instance of C10: logging a workout on day 4 (whose record has
diet already logged) keeps the date, the diet flag and the cycle start
intact while setting the workout flag. -/
theorem update_frame_and_monotone_witness :
    (update_record2 [exRecC10] 4 5 "workout").date = 4 ∧
    (update_record2 [exRecC10] 4 5 "workout").cycle_start = some 2 ∧
    (update_record2 [exRecC10] 4 5 "workout").workout_logged = true ∧
    (update_record2 [exRecC10] 4 5 "workout").diet_logged = true := by
  have h := update_frame_and_monotone [exRecC10] 4 5 "workout"
    (Or.inl rfl) (update_record2 [exRecC10] 4 5 "workout")
    (storeSet (update_store1 [exRecC10] 4 "workout")
      (update_record2 [exRecC10] 4 5 "workout"))
    (update_consistency_of_valid [exRecC10] 4 5 (Or.inl rfl))
  have h2 := h.2.1 exRecC10 (by decide)
  exact ⟨h.1, h2.1, (h2.2.1 rfl).1, h2.2.2.2.2 rfl⟩

/-- C5: with `missed_days > 0` the message is always drawn from the fixed
10-message comeback pool regardless of streak — in particular streak 45
with one missed day never yields the legendary-streak message — and with
`missed_days = 0` the message is exactly the one determined by bucketing
the streak into 0, 1, [2,7), [7,14), [14,21), [21,30), [30,inf). -/
theorem motivational_message_pools :
    (∀ streak missed rand : Nat, 0 < missed →
      get_motivational_message streak missed rand ∈ missed_messages) ∧
    (∀ rand : Nat, get_motivational_message 45 1 rand ≠
      "Legendary " ++ toString (45 : Nat) ++
        "-day streak! You\x27re an inspiration! ðŸ‘‘") ∧
    (∀ streak rand : Nat,
      get_motivational_message streak 0 rand = bucket_message streak) := by
  have hmem : ∀ streak missed rand : Nat, 0 < missed →
      get_motivational_message streak missed rand ∈ missed_messages := by
    intro streak missed rand hm
    unfold get_motivational_message
    rw [if_pos hm]
    exact random_choice_mem missed_messages rand (by decide)
  refine ⟨hmem, ?_, ?_⟩
  · intro rand heq
    have h := hmem 45 1 rand (by decide)
    rw [heq] at h
    have hnot : ("Legendary " ++ toString (45 : Nat) ++
        "-day streak! You\x27re an inspiration! ðŸ‘‘") ∉ missed_messages := by
      decide
    exact hnot h
  · intro streak rand
    unfold get_motivational_message bucket_message
    split_ifs <;> first | rfl | omega

/-- Concrete instance of C5: one missed day with a streak of 3 draws from
the comeback pool, and streak 5 with no miss gets its bucket's message. -/
theorem motivational_message_pools_witness :
    get_motivational_message 3 1 0 ∈ missed_messages ∧
    get_motivational_message 5 0 0 = bucket_message 5 :=
  ⟨motivational_message_pools.1 3 1 0 (by decide),
   motivational_message_pools.2.2 5 0⟩

/-- C6: the weekly breakdown has exactly 7 entries, one per calendar day
of the week ending at `end_date` (entry `i` describes day
`end_date - 6 + i`), days without a record default every flag to false,
and all three weekly percentages divide by the constant 7, not by the
number of existing records. -/
theorem weekly_summary_seven_days (recs : Store) (end_date : Int) :
    (daily_summary recs end_date).length = 7 ∧
    (∀ i : Nat, i < 7 →
      ((daily_summary recs end_date).getD i
          { date := 0, workout_logged := false, diet_logged := false,
            both_complete := false }).date = end_date - 6 + (i : Int) ∧
      (findByDate recs (end_date - 6 + (i : Int)) = none →
        (daily_summary recs end_date).getD i
            { date := 0, workout_logged := false, diet_logged := false,
              both_complete := false } =
          { date := end_date - 6 + (i : Int), workout_logged := false,
            diet_logged := false, both_complete := false })) ∧
    (weekly_stats recs end_date).workout_percentage =
      round1 (((weekly_stats recs end_date).workout_days : ℚ) / 7 * 100) ∧
    (weekly_stats recs end_date).diet_percentage =
      round1 (((weekly_stats recs end_date).diet_days : ℚ) / 7 * 100) ∧
    (weekly_stats recs end_date).completion_percentage =
      round1 (((weekly_stats recs end_date).complete_days : ℚ) / 7 * 100) := by
  refine ⟨by simp [daily_summary], ?_, rfl, rfl, rfl⟩
  intro i hi
  rw [daily_summary_entry recs end_date i hi]
  constructor
  · unfold daySummaryFor
    rcases hf : findByDate recs (end_date - 6 + (i : Int)) with _ | r <;> rfl
  · intro hn
    unfold daySummaryFor
    rw [hn]

/-- The single mid-week record used by the C6 witness. -/
def exRecC6 : ConsistencyRecord :=
  { date := 3, workout_logged := true, diet_logged := true,
    streak_day := 0, cycle_start := none }

/-- Concrete instance of C6: a single record in the week still yields 7
entries, and a day without a record gets the all-false entry. -/
theorem weekly_summary_seven_days_witness :
    (daily_summary [exRecC6] 6).length = 7 ∧
    (daily_summary [exRecC6] 6).getD 0
        { date := 0, workout_logged := false, diet_logged := false,
          both_complete := false } =
      { date := 0, workout_logged := false, diet_logged := false,
        both_complete := false } :=
  ⟨(weekly_summary_seven_days [exRecC6] 6).1,
   (((weekly_summary_seven_days [exRecC6] 6).2.1 0 (by decide)).2
     (by decide)).trans (by decide)⟩

/-- C7: with zero records in the 30-day range all three percentages of the
consistency statistics are 0 (no division error), and with a nonzero
record count each percentage is `count / total_days * 100` rounded to one
decimal, where `total_days` counts the existing records in the range. -/
theorem window_stats_zero_guard (recs : Store) (today : Int) :
    (statistics recs today).total_days =
      (findRange recs (today - 29) today).length ∧
    (findRange recs (today - 29) today = [] →
      (statistics recs today).workout_percentage = 0 ∧
      (statistics recs today).diet_percentage = 0 ∧
      (statistics recs today).completion_percentage = 0) ∧
    (0 < (statistics recs today).total_days →
      (statistics recs today).workout_percentage =
        round1 (((statistics recs today).workout_days : ℚ) /
          ((statistics recs today).total_days : ℚ) * 100) ∧
      (statistics recs today).diet_percentage =
        round1 (((statistics recs today).diet_days : ℚ) /
          ((statistics recs today).total_days : ℚ) * 100) ∧
      (statistics recs today).completion_percentage =
        round1 (((statistics recs today).both_logged_days : ℚ) /
          ((statistics recs today).total_days : ℚ) * 100)) := by
  refine ⟨rfl, ?_, ?_⟩
  · intro h
    refine ⟨?_, ?_, ?_⟩ <;>
    · show pct _ (findRange recs (today - 29) today).length = 0
      rw [h]
      simp [pct, round1]
  · intro hpos
    have h0 : (findRange recs (today - 29) today).length > 0 := hpos
    refine ⟨?_, ?_, ?_⟩ <;>
    · show pct _ (findRange recs (today - 29) today).length = round1 _
      unfold pct
      rw [if_pos h0]
      rfl

/-- Concrete instance of C7: an empty store yields all-zero percentages,
and a one-record store uses its record count as denominator. -/
theorem window_stats_zero_guard_witness :
    (statistics [] 0).workout_percentage = 0 ∧
    (statistics [exRecC3] 15).workout_percentage =
      round1 (((statistics [exRecC3] 15).workout_days : ℚ) /
        ((statistics [exRecC3] 15).total_days : ℚ) * 100) := by
  constructor
  · exact ((window_stats_zero_guard [] 0).2.1 (by decide)).1
  · exact ((window_stats_zero_guard [exRecC3] 15).2.2 (by decide)).1

/-- The future-dated record used by the C8 counterexample: its cycle
starts on day 2 while "today" is day 0. -/
def exRecC8 : ConsistencyRecord :=
  { date := 2, workout_logged := false, diet_logged := false,
    streak_day := 0, cycle_start := some 2 }

/-- C8 counterexample: with the latest record's cycle_start two days in
the future of `today`, the code reports `cycle_day = -1` and
`days_remaining = 30`, while the claim's formula
`max(0, 30 - cycle_day)` demands 31. -/
theorem cycle_info_days_remaining_cex :
    ¬ ((cycle_info [exRecC8] 0).days_remaining =
        max 0 (30 - (cycle_info [exRecC8] 0).cycle_day)) := by
  decide

/-- C8 amended: when the latest record carries a `cycle_start`,
`cycle_day = min(30, (today - cycle_start) + 1)` using the
most-recent-by-date record's cycle start, and
`days_remaining = max(0, 30 - cycle_day)` whenever `cycle_day > 0`
(when `cycle_day <= 0`, i.e. `cycle_start` lies after today, the code
reports 30 instead). -/
theorem cycle_info_amended (recs : Store) (today : Int)
    (lr : ConsistencyRecord) (cs : Int)
    (hl : latestRecord recs = some lr) (hcs : lr.cycle_start = some cs) :
    (cycle_info recs today).cycle_start = some cs ∧
    (cycle_info recs today).cycle_day = min 30 (today - cs + 1) ∧
    (0 < (cycle_info recs today).cycle_day →
      (cycle_info recs today).days_remaining =
        max 0 (30 - (cycle_info recs today).cycle_day)) ∧
    ((cycle_info recs today).cycle_day ≤ 0 →
      (cycle_info recs today).days_remaining = 30) ∧
    lr ∈ recs ∧ (∀ r ∈ recs, r.date ≤ lr.date) := by
  have e1 : (cycle_info recs today).cycle_start = some cs := by
    simp only [cycle_info, hl, hcs]
  have e2 : (cycle_info recs today).cycle_day =
      (if today - cs + 1 > 30 then 30 else today - cs + 1) := by
    simp only [cycle_info, hl, hcs]
  have e3 : (cycle_info recs today).days_remaining =
      (if (if today - cs + 1 > 30 then 30 else today - cs + 1) > 0 then
        max 0 (30 - (if today - cs + 1 > 30 then 30 else today - cs + 1))
      else 30) := by
    simp only [cycle_info, hl, hcs]
  refine ⟨e1, ?_, ?_, ?_, latestRecord_mem hl, latestRecord_max hl⟩
  · rw [e2]
    split_ifs <;> omega
  · intro h
    rw [e2] at h
    rw [e3, e2]
    split_ifs at h ⊢ <;> omega
  · intro h
    rw [e2] at h
    rw [e3]
    split_ifs at h ⊢ <;> omega

/-- The in-progress-cycle record used by the C8 witness. -/
def exRecC8b : ConsistencyRecord :=
  { date := 5, workout_logged := true, diet_logged := false,
    streak_day := 0, cycle_start := some 3 }

/-- Concrete instance of the amended C8: cycle started day 3, today day
10: cycle day 8, 22 days remaining. -/
theorem cycle_info_amended_witness :
    (cycle_info [exRecC8b] 10).cycle_day = min 30 (10 - 3 + 1) ∧
    (cycle_info [exRecC8b] 10).days_remaining =
      max 0 (30 - (cycle_info [exRecC8b] 10).cycle_day) :=
  have h := cycle_info_amended [exRecC8b] 10 exRecC8b 3 (by decide) rfl
  ⟨h.2.1, h.2.2.1 (by decide)⟩

/-- C9: in both scheduler sweeps an error raised while processing one user
is caught and recorded as that user's outcome, and the sweep still
produces one outcome per active user — a per-user failure never aborts the
sweep or escapes it. -/
theorem scheduler_sweep_isolated (users : List SchedUser)
    (processD processW : SchedUser → Except String SweepOutcome) :
    send_daily_reminders processD users =
      .ok ((users.filter (fun u => u.is_active)).map
        (fun u => catchOutcome (processD u))) ∧
    send_weekly_motivation processW users =
      .ok ((users.filter (fun u => u.is_active)).map
        (fun u => catchOutcome (processW u))) ∧
    (∀ u e, processD u = .error e → catchOutcome (processD u) = .failed e) ∧
    (∀ u e, processW u = .error e → catchOutcome (processW u) = .failed e) := by
  refine ⟨sweepUsers_ok processD _, sweepUsers_ok processW _, ?_, ?_⟩
  · intro u e he
    rw [he]
    rfl
  · intro u e he
    rw [he]
    rfl

/-- Three users, the first of which makes processing raise. -/
def exUsers : List SchedUser :=
  [{ id := 1, username := "alice", email := "alice@example.com",
     is_active := true },
   { id := 2, username := "bob", email := "bob@example.com",
     is_active := true },
   { id := 3, username := "carol", email := "carol@example.com",
     is_active := false }]

/-- A per-user body that raises for user 1 and succeeds otherwise. -/
def exProcess : SchedUser → Except String SweepOutcome :=
  fun u => if u.id = 1 then .error "db down" else .ok .notified

/-- Concrete instance of C9: user 1's failure is recorded and user 2 is
still processed; the inactive user 3 is skipped by the query. -/
theorem scheduler_sweep_isolated_witness :
    send_daily_reminders exProcess exUsers =
      .ok [.failed "db down", .notified] ∧
    catchOutcome (exProcess
      { id := 1, username := "alice", email := "alice@example.com",
        is_active := true }) = .failed "db down" :=
  ⟨(scheduler_sweep_isolated exUsers exProcess exProcess).1.trans (by rfl),
   (scheduler_sweep_isolated exUsers exProcess exProcess).2.2.1
     { id := 1, username := "alice", email := "alice@example.com",
       is_active := true } "db down" (by rfl)⟩
